import Mathlib

/-!
# Verification of `simulador_smart_office.py`

A shallow embedding of the Smart Office sensor-data simulator and proofs of
the specification's claims about it.  Python `datetime` values are modelled
by a record of calendar fields; the process-wide pseudo-random generators
(numpy's and the `random` module's) are modelled by streams of draws with a
cursor; Python floats are modelled by real numbers.
-/

namespace SmartOffice

/-- Model of a Python `datetime.datetime` value (second precision, as used
by the simulator). -/
structure Datetime where
  year : Nat
  month : Nat
  day : Nat
  hour : Nat
  minute : Nat
  second : Nat
deriving DecidableEq, Repr

/-- Number of days of the proleptic Gregorian calendar from 0000-03-01 to
the given civil date (the standard days-from-civil computation, specialised
to years ≥ 1 so that plain `Nat` arithmetic suffices).  This is the
absolute-day timeline underlying Python's `datetime` arithmetic. -/
def daysFromCivil (y m d : Nat) : Nat :=
  let y' := if m ≤ 2 then y - 1 else y
  let era := y' / 400
  let yoe := y' - era * 400
  let mp := if m > 2 then m - 3 else m + 9
  let doy := (153 * mp + 2) / 5 + d - 1
  let doe := yoe * 365 + yoe / 4 - yoe / 100 + doy
  era * 146097 + doe

/-- Python's `datetime.weekday()`: 0 = Monday … 6 = Sunday.  The offset 2
aligns the absolute day count with the weekday convention (checked below on
known dates). -/
def Datetime.weekday (dt : Datetime) : Nat :=
  (daysFromCivil dt.year dt.month dt.day + 2) % 7

/-- Absolute timeline position of a datetime, in minutes.  Used to compare
instants and measure differences between them. -/
def Datetime.toMinutes (dt : Datetime) : Nat :=
  (daysFromCivil dt.year dt.month dt.day) * 1440 + dt.hour * 60 + dt.minute

/-- `dt + timedelta(days=days, hours=hours, minutes=minutes)` for datetimes
whose result stays inside the same month (all instants the simulator builds
lie in January 2024, days 15–21). -/
def Datetime.addTimedelta (dt : Datetime) (days hours minutes : Nat) : Datetime :=
  let total := dt.day * 1440 + dt.hour * 60 + dt.minute
      + days * 1440 + hours * 60 + minutes
  { year := dt.year, month := dt.month,
    day := total / 1440, hour := total % 1440 / 60, minute := total % 60,
    second := dt.second }

/-- `datetime(2024, 1, 15, 0, 0, 0)`: the fixed start instant of the
simulation (`data_inicio` in `gerar_timestamps_7_dias`). -/
def data_inicio : Datetime := ⟨2024, 1, 15, 0, 0, 0⟩

/-- `gerar_timestamps_7_dias`: timestamps for 7 consecutive days at
15-minute intervals, built exactly as the triple loop in the source
(`for dia in range(7): for hora in range(24): for minuto in range(0, 60, 15)`). -/
def gerar_timestamps_7_dias : List Datetime :=
  (List.range 7).flatMap fun dia =>
    (List.range 24).flatMap fun hora =>
      ([0, 15, 30, 45] : List Nat).map fun minuto =>
        data_inicio.addTimedelta dia hora minuto

/-- The two process-wide pseudo-random generators used by the source
(numpy's, consumed by `np.random.normal`, and the `random` module's,
consumed by `random.random()`), modelled as streams of draws with a cursor:
`npStd i` is the i-th standard-normal draw numpy would produce and
`pyUnif i` the i-th uniform-[0,1) draw of `random.random`. -/
structure RandState where
  npStd : Nat → ℝ
  npIdx : Nat
  pyUnif : Nat → ℝ
  pyIdx : Nat

noncomputable section

/-- `np.random.normal(0, sigma)`: consumes one draw from the numpy stream;
a normal sample with mean 0 and standard deviation `sigma` is `sigma` times
a standard-normal draw. -/
def np_random_normal (sigma : ℝ) (s : RandState) : ℝ × RandState :=
  (sigma * s.npStd s.npIdx, { s with npIdx := s.npIdx + 1 })

/-- `random.random()`: consumes one uniform-[0,1) draw from the Python
stream. -/
def random_random (s : RandState) : ℝ × RandState :=
  (s.pyUnif s.pyIdx, { s with pyIdx := s.pyIdx + 1 })

/-- `simular_temperatura`: temperature in °C for a timestamp, threading the
random state.  Mirrors the source line by line: base 21.5, diurnal bump for
9 ≤ h ≤ 18, −2.0 at night (19–23h and 0–6h), +1.0 otherwise (7–8h), one
Gaussian draw (mean 0, std 0.8), −0.5 on weekends, clamp to [16, 28]. -/
def simular_temperatura (timestamp : Datetime) (s : RandState) : ℝ × RandState :=
  let hora := timestamp.hour
  let dia_semana := timestamp.weekday
  let temp_base : ℝ := 21.5
  let temp_base : ℝ :=
    if 9 ≤ hora ∧ hora ≤ 18 then
      temp_base + 3.5 * Real.sin (((hora : ℝ) - 9) * Real.pi / 9)
    else if (19 ≤ hora ∧ hora ≤ 23) ∨ (0 ≤ hora ∧ hora ≤ 6) then
      temp_base - 2.0
    else
      temp_base + 1.0
  let draw := np_random_normal 0.8 s
  let variacao_aleatoria := draw.1
  let temp_base : ℝ := if dia_semana ≥ 5 then temp_base - 0.5 else temp_base
  let temperatura_final := temp_base + variacao_aleatoria
  (max 16.0 (min 28.0 temperatura_final), draw.2)

/-- `hora_decimal = hora + minuto / 60.0`: the decimal hour of a timestamp,
as computed inside `simular_luminosidade`. -/
def hora_decimal (timestamp : Datetime) : ℝ :=
  (timestamp.hour : ℝ) + (timestamp.minute : ℝ) / 60.0

/-- `simular_luminosidade`: illuminance in lux for a timestamp, threading
the random state.  Night (decimal hour ≥ 20 or ≤ 6) returns 0.0 at once;
sunrise and sunset are linear ramps; daytime is a sinusoid plus one
Gaussian draw (mean 0, std 50), clamped to be non-negative. -/
def simular_luminosidade (timestamp : Datetime) (s : RandState) : ℝ × RandState :=
  if hora_decimal timestamp ≥ 20 ∨ hora_decimal timestamp ≤ 6 then
    (0.0, s)
  else if 6 < hora_decimal timestamp ∧ hora_decimal timestamp ≤ 8 then
    ((hora_decimal timestamp - 6) * 250, s)
  else if 18 ≤ hora_decimal timestamp ∧ hora_decimal timestamp < 20 then
    ((20 - hora_decimal timestamp) * 250, s)
  else
    let x := (hora_decimal timestamp - 8) * Real.pi / 10
    let luminosidade_base := 1000 * Real.sin x
    let draw := np_random_normal 50 s
    (max 0 (luminosidade_base + draw.1), draw.2)

/-- `simular_ocupacao`: occupancy (1 = occupied, 0 = free) for a timestamp,
threading the random state.  Business hours on weekdays use threshold 0.95,
other weekday hours 0.05, weekends 0.02; one uniform draw per call. -/
def simular_ocupacao (timestamp : Datetime) (s : RandState) : Nat × RandState :=
  let hora := timestamp.hour
  let dia_semana := timestamp.weekday
  if dia_semana < 5 ∧ 9 ≤ hora ∧ hora < 18 then
    let draw := random_random s
    ((if draw.1 < 0.95 then 1 else 0), draw.2)
  else if dia_semana < 5 then
    let draw := random_random s
    ((if draw.1 < 0.05 then 1 else 0), draw.2)
  else
    let draw := random_random s
    ((if draw.1 < 0.02 then 1 else 0), draw.2)

end

/-- Zero-padding to two digits, as `%d`/`%H`/`%M`/`%S` of `strftime` do. -/
def pad2 (n : Nat) : String :=
  if n < 10 then "0" ++ toString n else toString n

/-- `timestamp.strftime('%Y-%m-%d %H:%M:%S')` (the simulator's years have
four digits, so `%Y` needs no padding). -/
def Datetime.strftime (dt : Datetime) : String :=
  toString dt.year ++ "-" ++ pad2 dt.month ++ "-" ++ pad2 dt.day ++ " " ++
    pad2 dt.hour ++ ":" ++ pad2 dt.minute ++ ":" ++ pad2 dt.second

/-- A Python numeric value as stored in the `value` column: temperature and
illuminance rows hold floats, occupancy rows hold ints. -/
inductive PyValue where
  | float (x : ℝ) : PyValue
  | int (n : Nat) : PyValue

/-- One row of the accumulated table: `{'timestamp': …, 'sensor_id': …,
'value': …}`. -/
structure Reading where
  timestamp : String
  sensor_id : String
  value : PyValue

noncomputable section

/-- Python's `round(x, 2)`: rounding to two decimal places. -/
def round2 (x : ℝ) : ℝ :=
  (round (x * 100) : ℤ) / 100

/-- The three rows appended to `dados_sensores` for one timestamp, in
source order (temperature, illuminance, occupancy), with the random state
threaded through the three simulator calls. -/
def linhas_do_instante (timestamp : Datetime) (s : RandState) :
    List Reading × RandState :=
  let temp := simular_temperatura timestamp s
  let lux := simular_luminosidade timestamp temp.2
  let occ := simular_ocupacao timestamp lux.2
  ([⟨timestamp.strftime, "TEMP01", PyValue.float (round2 temp.1)⟩,
    ⟨timestamp.strftime, "LUX01", PyValue.float (round2 lux.1)⟩,
    ⟨timestamp.strftime, "OCCU01", PyValue.int occ.1⟩], occ.2)

/-- The accumulation loop of `main`: three rows per timestamp, random state
threaded from one iteration to the next. -/
def gerar_linhas : List Datetime → RandState → List Reading × RandState
  | [], s => ([], s)
  | t :: ts, s =>
    let r := linhas_do_instante t s
    let rest := gerar_linhas ts r.2
    (r.1 ++ rest.1, rest.2)

/-- `dados_sensores` at the end of the loop in `main`, as a function of the
initial (seeded) random state. -/
def dados_sensores (s0 : RandState) : List Reading :=
  (gerar_linhas gerar_timestamps_7_dias s0).1

/-- The text of one `value` cell.  `floatRepr` is the runtime's
float-to-decimal-text conversion (pandas's float formatting, which renders
integral floats with a trailing `.0`, e.g. `1.0`); int cells would print in
plain decimal. -/
def renderValue (floatRepr : ℝ → String) : PyValue → String
  | PyValue.float x => floatRepr x
  | PyValue.int n => toString n

/-- The dtype unification `pd.DataFrame` performs on the `value` column:
the column mixes Python ints (occupancy) with floats (temperature,
illuminance), so pandas unifies its dtype to float64, coercing every int
cell to the corresponding float. -/
def dataframe_value : PyValue → PyValue
  | PyValue.float x => PyValue.float x
  | PyValue.int n => PyValue.float (n : ℝ)

/-- `pd.DataFrame(dados_sensores)`: the accumulated rows with the `value`
column coerced to float64. -/
def to_dataframe (rows : List Reading) : List Reading :=
  rows.map fun r => { r with value := dataframe_value r.value }

/-- One CSV data line: the three fields joined by commas, with no index
column (`index=False`). -/
def csvLine (floatRepr : ℝ → String) (r : Reading) : String :=
  r.timestamp ++ "," ++ r.sensor_id ++ "," ++ renderValue floatRepr r.value

/-- The lines of the CSV file: the header, then one line per row in table
order. -/
def csvLines (floatRepr : ℝ → String) (rows : List Reading) : List String :=
  "timestamp,sensor_id,value" :: rows.map (csvLine floatRepr)

/-- `df.to_csv(nome_arquivo, index=False, encoding='utf-8')` where
`df = pd.DataFrame(rows)`: the full text written to
`smart_office_data.csv` — every line, header included, is terminated by a
newline, and the cells go through the DataFrame's float64 `value`
column. -/
def to_csv (floatRepr : ℝ → String) (rows : List Reading) : String :=
  String.join ((csvLines floatRepr (to_dataframe rows)).map (fun l => l ++ "\n"))

/-- A value cell read back as a number, as pandas aggregations see it. -/
def valueToReal : PyValue → ℝ
  | PyValue.float x => x
  | PyValue.int n => (n : ℝ)

/-- The `value` column restricted to one sensor
(`df[df['sensor_id'] == sensor]['value']`). -/
def valoresDe (rows : List Reading) (sensor : String) : List ℝ :=
  (rows.filter (fun r => r.sensor_id = sensor)).map (fun r => valueToReal r.value)

/-- `df['timestamp'].min()` on the object column: the lexicographic
minimum of the timestamp strings.  Python compares strings by code points;
`<` on the underlying character lists is that lexicographic order. -/
def periodo_min : List String → Option String
  | [] => none
  | x :: xs => some (xs.foldl (fun a b => if b.data < a.data then b else a) x)

/-- `df['timestamp'].max()`: the lexicographic maximum of the timestamp
strings. -/
def periodo_max : List String → Option String
  | [] => none
  | x :: xs => some (xs.foldl (fun a b => if a.data < b.data then b else a) x)

/-- The printed summary block of `main`: total row count,
`df['timestamp'].min()` and `.max()` (lexicographic on the formatted
strings), and mean/min/max of each sensor's values. -/
def resumo (rows : List Reading) :
    Nat × Option String × Option String × List (ℝ × WithTop ℝ × WithBot ℝ) :=
  (rows.length,
   periodo_min (rows.map Reading.timestamp),
   periodo_max (rows.map Reading.timestamp),
   (["TEMP01", "LUX01", "OCCU01"]).map fun sensor =>
     ((valoresDe rows sensor).sum / (valoresDe rows sensor).length,
      (valoresDe rows sensor).minimum,
      (valoresDe rows sensor).maximum))

/-- One whole run of `main` as a function of the initial random state: the
in-memory table, the file contents, and the printed statistics. -/
def run (floatRepr : ℝ → String) (s0 : RandState) :
    List Reading × String × (Nat × Option String × Option String × List (ℝ × WithTop ℝ × WithBot ℝ)) :=
  (dados_sensores s0, to_csv floatRepr (dados_sensores s0), resumo (dados_sensores s0))

/-- Spec-side definition, following the claim's wording for the temperature
base value: 21.5 + 3.5·sin((h−9)·π/9) for 9 ≤ h ≤ 18, 21.5 − 2.0 for
h ∈ [19,23] ∪ [0,6], 21.5 + 1.0 for h ∈ {7,8}, and 0.5 less on Saturdays
and Sundays.  To be compared with `simular_temperatura`. -/
def temperatura_base_spec (t : Datetime) : ℝ :=
  let base : ℝ :=
    if 9 ≤ t.hour ∧ t.hour ≤ 18 then
      21.5 + 3.5 * Real.sin (((t.hour : ℝ) - 9) * Real.pi / 9)
    else if (19 ≤ t.hour ∧ t.hour ≤ 23) ∨ t.hour ≤ 6 then
      21.5 - 2.0
    else
      21.5 + 1.0
  if t.weekday = 5 ∨ t.weekday = 6 then base - 0.5 else base

/-- Spec-side definition, following the claim's wording for the occupancy
threshold: 0.95 on weekdays during 9–18h, 0.05 on weekdays otherwise, 0.02
on weekends.  To be compared with `simular_ocupacao`. -/
def limiar_spec (t : Datetime) : ℝ :=
  if t.weekday < 5 ∧ 9 ≤ t.hour ∧ t.hour < 18 then 0.95
  else if t.weekday < 5 then 0.05
  else 0.02

/-- A concrete random state (all draws zero), used to instantiate the
universally quantified theorems at a specific input. -/
def estadoZero : RandState :=
  ⟨fun _ => 0, 0, fun _ => 0, 0⟩

end

end SmartOffice

namespace SmartOffice

theorem weekday_data_inicio : data_inicio.weekday = 0 := by decide

set_option maxRecDepth 4000 in
theorem timestamps_length : gerar_timestamps_7_dias.length = 672 := by decide

set_option maxRecDepth 100000 in
theorem timestamps_map_toMinutes :
    gerar_timestamps_7_dias.map Datetime.toMinutes =
      List.range' (Datetime.toMinutes data_inicio) 672 15 := by decide

theorem range'_chain_15 :
    List.Chain' (fun a b : Nat => b = a + 15)
      (List.range' (Datetime.toMinutes data_inicio) 672 15) := by
  rw [List.chain'_iff_get]
  intro i h
  simp only [List.length_range'] at h
  rw [List.get_range', List.get_range']
  omega

theorem timestamps_minutes_pairwise :
    List.Pairwise (· < ·) (gerar_timestamps_7_dias.map Datetime.toMinutes) := by
  rw [timestamps_map_toMinutes]
  exact List.chain'_iff_pairwise.mp (range'_chain_15.imp fun h => by omega)

set_option maxRecDepth 4000 in
/-- **C1.** The timestamp generator, with no inputs, returns an ordered
sequence of exactly 672 instants whose first element is
2024-01-15T00:00:00, in which every pair of consecutive instants differs by
exactly 15 minutes, every instant is strictly before start + 7 days, and no
instant occurs twice. -/
theorem C1_gerar_timestamps_7_dias :
    gerar_timestamps_7_dias.length = 672 ∧
    gerar_timestamps_7_dias.head? = some ⟨2024, 1, 15, 0, 0, 0⟩ ∧
    List.Chain' (fun a b => Datetime.toMinutes b = Datetime.toMinutes a + 15)
      gerar_timestamps_7_dias ∧
    List.Pairwise (fun a b => Datetime.toMinutes a < Datetime.toMinutes b)
      gerar_timestamps_7_dias ∧
    (∀ t ∈ gerar_timestamps_7_dias,
      Datetime.toMinutes t < Datetime.toMinutes data_inicio + 7 * 24 * 60) ∧
    gerar_timestamps_7_dias.Nodup := by
  refine ⟨timestamps_length, by decide, ?_, ?_, ?_, ?_⟩
  · have h := range'_chain_15
    rw [← timestamps_map_toMinutes] at h
    exact (List.chain'_map (R := fun a b : Nat => b = a + 15) Datetime.toMinutes).mp h
  · exact List.pairwise_map.mp timestamps_minutes_pairwise
  · intro t ht
    have hm : Datetime.toMinutes t ∈ gerar_timestamps_7_dias.map Datetime.toMinutes :=
      List.mem_map_of_mem _ ht
    rw [timestamps_map_toMinutes] at hm
    obtain ⟨i, hi, he⟩ := List.mem_range'.mp hm
    omega
  · exact List.Nodup.of_map Datetime.toMinutes
      (timestamps_minutes_pairwise.imp fun h => Nat.ne_of_lt h)

/-- **C3.** For every instant and every value of the Gaussian noise draw,
the temperature signal returns a value in the closed interval
[16.0, 28.0]. -/
theorem C3_simular_temperatura_bounds (t : Datetime) (s : RandState) :
    16.0 ≤ (simular_temperatura t s).1 ∧ (simular_temperatura t s).1 ≤ 28.0 := by
  unfold simular_temperatura
  exact ⟨le_max_left _ _, max_le (by norm_num) (min_le_left _ _)⟩

theorem weekday_lt_7 (t : Datetime) : t.weekday < 7 :=
  Nat.mod_lt _ (by norm_num)

/-- **C4.** For every instant with hour h and weekday w, and noise draw n,
the temperature signal equals clamp(base + n, 16.0, 28.0), where base is
`temperatura_base_spec` (21.5 + 3.5·sin((h−9)·π/9) if 9 ≤ h ≤ 18,
21.5 − 2.0 if h ∈ [19,23] ∪ [0,6], 21.5 + 1.0 if h ∈ {7,8}, 0.5 less on
Saturday/Sunday), n = 0.8 times the pending standard-normal draw, and
exactly one Gaussian sample is consumed per call. -/
theorem C4_simular_temperatura_formula (t : Datetime) (s : RandState) :
    (simular_temperatura t s).1 =
      max 16.0 (min 28.0 (temperatura_base_spec t + 0.8 * s.npStd s.npIdx)) ∧
    (simular_temperatura t s).2 = { s with npIdx := s.npIdx + 1 } := by
  have hw : t.weekday < 7 := weekday_lt_7 t
  constructor
  · simp only [simular_temperatura, temperatura_base_spec, np_random_normal]
    split_ifs <;> first | rfl | omega
  · simp [simular_temperatura, np_random_normal]

/-- **C5.** For every instant and every noise draw, the illuminance signal
returns a value ≥ 0, and for every instant whose decimal hour is ≥ 20 or
≤ 6 it returns exactly 0.0 without consuming any random sample. -/
theorem C5_simular_luminosidade_nonneg (t : Datetime) (s : RandState) :
    0 ≤ (simular_luminosidade t s).1 ∧
    (hora_decimal t ≥ 20 ∨ hora_decimal t ≤ 6 →
      (simular_luminosidade t s).1 = 0 ∧ (simular_luminosidade t s).2 = s) := by
  simp only [simular_luminosidade, np_random_normal]
  split_ifs with h1 h2 h3 <;> dsimp only
  · exact ⟨by norm_num, fun _ => ⟨by norm_num, rfl⟩⟩
  · exact ⟨by nlinarith [h2.1], fun hn => absurd hn h1⟩
  · exact ⟨by nlinarith [h3.2], fun hn => absurd hn h1⟩
  · exact ⟨le_max_left _ _, fun hn => absurd hn h1⟩

/-- Instant 2024-01-15T02:00:00 (night): its decimal hour is ≤ 6, and the
illuminance there is exactly 0 with the random state untouched. -/
theorem C5_simular_luminosidade_nonneg_witness :
    (hora_decimal ⟨2024, 1, 15, 2, 0, 0⟩ ≥ 20 ∨ hora_decimal ⟨2024, 1, 15, 2, 0, 0⟩ ≤ 6) ∧
    (simular_luminosidade ⟨2024, 1, 15, 2, 0, 0⟩ estadoZero).1 = 0 ∧
    (simular_luminosidade ⟨2024, 1, 15, 2, 0, 0⟩ estadoZero).2 = estadoZero :=
  ⟨Or.inr (by norm_num [hora_decimal]),
   (C5_simular_luminosidade_nonneg ⟨2024, 1, 15, 2, 0, 0⟩ estadoZero).2
     (Or.inr (by norm_num [hora_decimal]))⟩

/-- **C6.** For every instant with decimal hour d: if 6 < d ≤ 8 the
illuminance is exactly (d − 6) × 250 with no random sample consumed; if
18 ≤ d < 20 it is exactly (20 − d) × 250 with no random sample consumed;
and if 8 < d < 18 it is max(0, 1000·sin((d − 8)·π/10) + n) where n is 50
times the one consumed standard-normal draw (a Gaussian sample with mean 0
and std 50). -/
theorem C6_simular_luminosidade_formula (t : Datetime) (s : RandState) :
    (6 < hora_decimal t ∧ hora_decimal t ≤ 8 →
      (simular_luminosidade t s).1 = (hora_decimal t - 6) * 250 ∧
      (simular_luminosidade t s).2 = s) ∧
    (18 ≤ hora_decimal t ∧ hora_decimal t < 20 →
      (simular_luminosidade t s).1 = (20 - hora_decimal t) * 250 ∧
      (simular_luminosidade t s).2 = s) ∧
    (8 < hora_decimal t ∧ hora_decimal t < 18 →
      (simular_luminosidade t s).1 =
        max 0 (1000 * Real.sin ((hora_decimal t - 8) * Real.pi / 10) + 50 * s.npStd s.npIdx) ∧
      (simular_luminosidade t s).2 = { s with npIdx := s.npIdx + 1 }) := by
  simp only [simular_luminosidade, np_random_normal]
  split_ifs with h1 h2 h3 <;> dsimp only
  · rcases h1 with h1 | h1
    · exact ⟨fun h => by nlinarith [h.2], fun h => by nlinarith [h.2], fun h => by nlinarith [h.2]⟩
    · exact ⟨fun h => by nlinarith [h.1], fun h => by nlinarith [h.1], fun h => by nlinarith [h.1]⟩
  · refine ⟨fun _ => ⟨rfl, rfl⟩, fun h => ?_, fun h => ?_⟩
    · nlinarith [h.1, h2.2]
    · nlinarith [h.1, h2.2]
  · refine ⟨fun h => ?_, fun _ => ⟨rfl, rfl⟩, fun h => ?_⟩
    · nlinarith [h.2, h3.1]
    · nlinarith [h.2, h3.1]
  · exact ⟨fun h => absurd h h2, fun h => absurd h h3, fun _ => ⟨rfl, rfl⟩⟩

/-- Instant 2024-01-15T07:00:00 (sunrise ramp): its decimal hour lies in
(6, 8], and the illuminance there is the linear ramp value with the random
state untouched. -/
theorem C6_simular_luminosidade_formula_witness :
    (6 < hora_decimal ⟨2024, 1, 15, 7, 0, 0⟩ ∧ hora_decimal ⟨2024, 1, 15, 7, 0, 0⟩ ≤ 8) ∧
    (simular_luminosidade ⟨2024, 1, 15, 7, 0, 0⟩ estadoZero).1 =
      (hora_decimal ⟨2024, 1, 15, 7, 0, 0⟩ - 6) * 250 ∧
    (simular_luminosidade ⟨2024, 1, 15, 7, 0, 0⟩ estadoZero).2 = estadoZero :=
  ⟨⟨by norm_num [hora_decimal], by norm_num [hora_decimal]⟩,
   (C6_simular_luminosidade_formula ⟨2024, 1, 15, 7, 0, 0⟩ estadoZero).1
     ⟨by norm_num [hora_decimal], by norm_num [hora_decimal]⟩⟩

theorem ocupacao_zero_ou_um (t : Datetime) (s : RandState) :
    (simular_ocupacao t s).1 = 0 ∨ (simular_ocupacao t s).1 = 1 := by
  simp only [simular_ocupacao, random_random]
  split_ifs <;> simp

/-- **C7.** For every instant and every uniform draw u, the occupancy
signal returns only 0 or 1, consuming exactly one uniform sample, returns
1 iff u is below the selected threshold `limiar_spec`, and the threshold
is 0.95 on weekdays with hour in [9,18), 0.05 on weekdays otherwise, and
0.02 on weekends — the weekend branch applying even when the hour is
within [9,18). -/
theorem C7_simular_ocupacao (t : Datetime) (s : RandState) :
    ((simular_ocupacao t s).1 = 0 ∨ (simular_ocupacao t s).1 = 1) ∧
    (simular_ocupacao t s).2 = { s with pyIdx := s.pyIdx + 1 } ∧
    ((simular_ocupacao t s).1 = 1 ↔ s.pyUnif s.pyIdx < limiar_spec t) ∧
    (t.weekday < 5 ∧ 9 ≤ t.hour ∧ t.hour < 18 → limiar_spec t = 0.95) ∧
    (t.weekday < 5 ∧ ¬(9 ≤ t.hour ∧ t.hour < 18) → limiar_spec t = 0.05) ∧
    (5 ≤ t.weekday → limiar_spec t = 0.02) := by
  refine ⟨ocupacao_zero_ou_um t s, ?_, ?_, ?_, ?_, ?_⟩
  · simp only [simular_ocupacao, random_random]
    split_ifs <;> rfl
  · simp only [simular_ocupacao, random_random, limiar_spec]
    split_ifs <;> simp_all
  · intro h
    simp only [limiar_spec]
    rw [if_pos h]
  · intro h
    simp only [limiar_spec]
    rw [if_neg (fun hc => h.2 ⟨hc.2.1, hc.2.2⟩), if_pos h.1]
  · intro h
    simp only [limiar_spec]
    rw [if_neg (fun hc => by omega), if_neg (fun hc => by omega)]

theorem gerar_linhas_length (ts : List Datetime) (s : RandState) :
    (gerar_linhas ts s).1.length = 3 * ts.length := by
  induction ts generalizing s with
  | nil => simp [gerar_linhas]
  | cons t ts ih =>
    simp only [gerar_linhas, linhas_do_instante, List.length_append, List.length_cons,
      List.length_nil, ih, List.length_cons]
    ring

theorem gerar_linhas_count_temp (ts : List Datetime) (s : RandState) :
    ((gerar_linhas ts s).1.filter (fun r => r.sensor_id == "TEMP01")).length = ts.length := by
  induction ts generalizing s with
  | nil => simp [gerar_linhas]
  | cons t ts ih => simp [gerar_linhas, linhas_do_instante, ih]

theorem gerar_linhas_count_lux (ts : List Datetime) (s : RandState) :
    ((gerar_linhas ts s).1.filter (fun r => r.sensor_id == "LUX01")).length = ts.length := by
  induction ts generalizing s with
  | nil => simp [gerar_linhas]
  | cons t ts ih => simp [gerar_linhas, linhas_do_instante, ih]

theorem gerar_linhas_count_occu (ts : List Datetime) (s : RandState) :
    ((gerar_linhas ts s).1.filter (fun r => r.sensor_id == "OCCU01")).length = ts.length := by
  induction ts generalizing s with
  | nil => simp [gerar_linhas]
  | cons t ts ih => simp [gerar_linhas, linhas_do_instante, ih]

theorem gerar_linhas_chunk (ts : List Datetime) (s : RandState) :
    ∀ i, i < ts.length →
    ∃ tv lv : ℝ, ∃ ov : Nat, (ov = 0 ∨ ov = 1) ∧
      (((gerar_linhas ts s).1.drop (3 * i)).take 3 =
        [⟨(ts.getD i data_inicio).strftime, "TEMP01", PyValue.float (round2 tv)⟩,
         ⟨(ts.getD i data_inicio).strftime, "LUX01", PyValue.float (round2 lv)⟩,
         ⟨(ts.getD i data_inicio).strftime, "OCCU01", PyValue.int ov⟩]) := by
  induction ts generalizing s with
  | nil => intro i hi; simp at hi
  | cons t ts ih =>
    intro i hi
    cases i with
    | zero =>
      refine ⟨(simular_temperatura t s).1,
        (simular_luminosidade t (simular_temperatura t s).2).1,
        (simular_ocupacao t (simular_luminosidade t (simular_temperatura t s).2).2).1,
        ocupacao_zero_ou_um _ _, ?_⟩
      simp [gerar_linhas, linhas_do_instante]
    | succ j =>
      obtain ⟨tv, lv, ov, hov, he⟩ :=
        ih (linhas_do_instante t s).2 j (by simpa using Nat.lt_of_succ_lt_succ hi)
      refine ⟨tv, lv, ov, hov, ?_⟩
      have h3 : 3 * (j + 1) = 3 * j + 1 + 1 + 1 := by ring
      simp only [gerar_linhas, h3, List.getD_cons_succ]
      simp only [linhas_do_instante] at he ⊢
      simp only [List.cons_append, List.nil_append, List.drop_succ_cons]
      exact he

/-- **C2.** For every initial random state, the accumulated table contains
exactly 2016 rows, exactly 672 rows per sensor identifier, and for every
generated instant (index i) exactly three rows appear, consecutively and
in the order TEMP01, LUX01, OCCU01, carrying that instant's formatted
timestamp, with temperature and illuminance values rounded to 2 decimals
and occupancy stored as an unrounded integer (0 or 1). -/
theorem C2_dados_sensores (s0 : RandState) :
    (dados_sensores s0).length = 2016 ∧
    ((dados_sensores s0).filter (fun r => r.sensor_id == "TEMP01")).length = 672 ∧
    ((dados_sensores s0).filter (fun r => r.sensor_id == "LUX01")).length = 672 ∧
    ((dados_sensores s0).filter (fun r => r.sensor_id == "OCCU01")).length = 672 ∧
    ∀ i, i < 672 →
      ∃ tv lv : ℝ, ∃ ov : Nat, (ov = 0 ∨ ov = 1) ∧
        (((dados_sensores s0).drop (3 * i)).take 3 =
          [⟨(gerar_timestamps_7_dias.getD i data_inicio).strftime, "TEMP01",
              PyValue.float (round2 tv)⟩,
           ⟨(gerar_timestamps_7_dias.getD i data_inicio).strftime, "LUX01",
              PyValue.float (round2 lv)⟩,
           ⟨(gerar_timestamps_7_dias.getD i data_inicio).strftime, "OCCU01",
              PyValue.int ov⟩]) := by
  refine ⟨?_, ?_, ?_, ?_, ?_⟩
  · rw [dados_sensores, gerar_linhas_length, timestamps_length]
  · rw [dados_sensores, gerar_linhas_count_temp, timestamps_length]
  · rw [dados_sensores, gerar_linhas_count_lux, timestamps_length]
  · rw [dados_sensores, gerar_linhas_count_occu, timestamps_length]
  · intro i hi
    exact gerar_linhas_chunk _ s0 i (by rw [timestamps_length]; exact hi)

/-- The first three rows of the table for the all-zero random state: one
chunk of the shape required by the per-instant invariant, at index 0. -/
theorem C2_dados_sensores_witness :
    (0 : Nat) < 672 ∧
    ∃ tv lv : ℝ, ∃ ov : Nat, (ov = 0 ∨ ov = 1) ∧
      (((dados_sensores estadoZero).drop (3 * 0)).take 3 =
        [⟨(gerar_timestamps_7_dias.getD 0 data_inicio).strftime, "TEMP01",
            PyValue.float (round2 tv)⟩,
         ⟨(gerar_timestamps_7_dias.getD 0 data_inicio).strftime, "LUX01",
            PyValue.float (round2 lv)⟩,
         ⟨(gerar_timestamps_7_dias.getD 0 data_inicio).strftime, "OCCU01",
            PyValue.int ov⟩]) :=
  ⟨by norm_num, (C2_dados_sensores estadoZero).2.2.2.2 0 (by norm_num)⟩

theorem to_dataframe_value_float (rows : List Reading) :
    (to_dataframe rows).all
      (fun r => match r.value with
        | PyValue.float _ => true
        | PyValue.int _ => false) = true := by
  rw [List.all_eq_true]
  intro r hr
  rw [to_dataframe, List.mem_map] at hr
  obtain ⟨r', _, rfl⟩ := hr
  obtain ⟨ts, sid, v⟩ := r'
  cases v <;> rfl

theorem strftime_data_inicio : data_inicio.strftime = "2024-01-15 00:00:00" := by decide

/-- **C8.** (code bug)  The claim says every OCCU01 row's value field is
written as the plain decimal text `0` or `1`.  It is not: `pd.DataFrame`
unifies the mixed int/float `value` column to float64, so after the
DataFrame step every value cell is a float (first conjunct); in
particular the first occupancy row of the table (instant
2024-01-15 00:00:00, with the all-zero seeded streams) holds the float
`ov` with ov ∈ {0, 1}, and its serialized cell text is the float
formatter applied to that float — under pandas' formatting of integral
floats that is `0.0`/`1.0`, which differs from the claimed plain
`0`/`1` (last three conjuncts). -/
theorem C8_occupancy_cells_float64 (floatRepr : ℝ → String) (s0 : RandState) :
    (to_dataframe (dados_sensores s0)).all
      (fun r => match r.value with
        | PyValue.float _ => true
        | PyValue.int _ => false) = true ∧
    (∃ ov : Nat, (ov = 0 ∨ ov = 1) ∧
      (∃ a b : Reading, ∃ rest : List Reading,
        to_dataframe (dados_sensores estadoZero) =
          a :: b :: (⟨"2024-01-15 00:00:00", "OCCU01", PyValue.float (ov : ℝ)⟩ : Reading) :: rest) ∧
      csvLine floatRepr ⟨"2024-01-15 00:00:00", "OCCU01", PyValue.float (ov : ℝ)⟩ =
        "2024-01-15 00:00:00,OCCU01," ++ floatRepr (ov : ℝ)) ∧
    csvLine (fun _ => "1.0") ⟨"2024-01-15 00:00:00", "OCCU01", PyValue.float 1⟩ =
      "2024-01-15 00:00:00,OCCU01,1.0" ∧
    ("2024-01-15 00:00:00,OCCU01,1.0" : String) ≠ "2024-01-15 00:00:00,OCCU01,1" ∧
    ("2024-01-15 00:00:00,OCCU01,0.0" : String) ≠ "2024-01-15 00:00:00,OCCU01,0" := by
  refine ⟨to_dataframe_value_float _, ?_, by decide, by decide, by decide⟩
  obtain ⟨tv, lv, ov, hov, he⟩ :=
    gerar_linhas_chunk gerar_timestamps_7_dias estadoZero 0 (by rw [timestamps_length]; norm_num)
  simp only [Nat.mul_zero, List.drop_zero] at he
  have hg : gerar_timestamps_7_dias.getD 0 data_inicio = data_inicio := by decide
  rw [hg, strftime_data_inicio] at he
  have he' : (dados_sensores estadoZero).take 3 =
      [⟨"2024-01-15 00:00:00", "TEMP01", PyValue.float (round2 tv)⟩,
       ⟨"2024-01-15 00:00:00", "LUX01", PyValue.float (round2 lv)⟩,
       ⟨"2024-01-15 00:00:00", "OCCU01", PyValue.int ov⟩] := by
    rw [dados_sensores]
    exact he
  refine ⟨ov, hov, ?_, ?_⟩
  · have hesq : to_dataframe (dados_sensores estadoZero) =
        to_dataframe ((dados_sensores estadoZero).take 3) ++
          to_dataframe ((dados_sensores estadoZero).drop 3) := by
      rw [to_dataframe, to_dataframe, to_dataframe, ← List.map_append, List.take_append_drop]
    rw [hesq, he']
    simp only [to_dataframe, List.map_cons, List.map_nil, dataframe_value, List.cons_append,
      List.nil_append]
    exact ⟨_, _, _, rfl⟩
  · simp only [csvLine, renderValue]
    exact congrArg (· ++ floatRepr (ov : ℝ)) (by decide)

/-- **C9.** With the two pseudo-random generators in identical states (as
after seeding both with 42 on the same implementation of the underlying
distributions), two runs of the program produce identical output: the same
in-memory table, the same file contents, and the same printed
statistics. -/
theorem C9_run_deterministic (floatRepr : ℝ → String) (s1 s2 : RandState)
    (h1 : s1.npStd = s2.npStd) (h2 : s1.npIdx = s2.npIdx)
    (h3 : s1.pyUnif = s2.pyUnif) (h4 : s1.pyIdx = s2.pyIdx) :
    run floatRepr s1 = run floatRepr s2 := by
  have h : s1 = s2 := by
    cases s1
    cases s2
    simp_all
  rw [h]

/-- Two runs from the all-zero random state coincide. -/
theorem C9_run_deterministic_witness :
    run (fun _ => "") estadoZero = run (fun _ => "") estadoZero :=
  C9_run_deterministic (fun _ => "") estadoZero estadoZero rfl rfl rfl rfl

theorem gerar_linhas_map_timestamp (ts : List Datetime) (s : RandState) :
    (gerar_linhas ts s).1.map Reading.timestamp =
      ts.flatMap (fun t => [t.strftime, t.strftime, t.strftime]) := by
  induction ts generalizing s with
  | nil => simp [gerar_linhas]
  | cons t ts ih => simp [gerar_linhas, linhas_do_instante, ih]

theorem foldl_min_mem (l : List String) (a : String) :
    l.foldl (fun a b => if b.data < a.data then b else a) a ∈ a :: l := by
  induction l generalizing a with
  | nil => simp
  | cons b l ih =>
    simp only [List.foldl_cons]
    rcases List.mem_cons.mp (ih (if b.data < a.data then b else a)) with h | h
    · rw [h]
      split_ifs <;> simp
    · simp [h]

theorem foldl_min_not_lt (l : List String) (a : String) :
    ∀ c ∈ a :: l,
      ¬ c.data < (l.foldl (fun a b => if b.data < a.data then b else a) a).data := by
  induction l generalizing a with
  | nil =>
    intro c hc
    rw [List.mem_singleton] at hc
    subst hc
    exact lt_irrefl _
  | cons b l ih =>
    intro c hc
    simp only [List.foldl_cons]
    rcases List.mem_cons.mp hc with rfl | hc'
    · by_cases hba : b.data < c.data
      · rw [if_pos hba]
        intro hlt
        exact ih b b (List.mem_cons_self b l) (lt_trans hba hlt)
      · rw [if_neg hba]
        exact ih c c (List.mem_cons_self c l)
    · rcases List.mem_cons.mp hc' with rfl | hcl
      · by_cases hba : c.data < a.data
        · rw [if_pos hba]
          exact ih c c (List.mem_cons_self c l)
        · rw [if_neg hba]
          intro hlt
          exact ih a a (List.mem_cons_self a l) (lt_of_le_of_lt (not_lt.mp hba) hlt)
      · by_cases hba : b.data < a.data
        · rw [if_pos hba]
          exact ih b c (List.mem_cons_of_mem b hcl)
        · rw [if_neg hba]
          exact ih a c (List.mem_cons_of_mem a hcl)

theorem periodo_min_eq_some (l : List String) (m : String) (hm : m ∈ l)
    (hlb : ∀ c ∈ l, ¬ c.data < m.data) : periodo_min l = some m := by
  cases l with
  | nil => simp at hm
  | cons a l =>
    simp only [periodo_min, Option.some.injEq]
    have h1 := hlb _ (foldl_min_mem l a)
    have h2 := foldl_min_not_lt l a m hm
    apply String.ext
    have ht := lt_trichotomy
        ((l.foldl (fun a b => if b.data < a.data then b else a) a).data) m.data
    rcases ht with h | h | h
    · exact absurd h h1
    · exact h
    · exact absurd h h2

theorem foldl_max_mem (l : List String) (a : String) :
    l.foldl (fun a b => if a.data < b.data then b else a) a ∈ a :: l := by
  induction l generalizing a with
  | nil => simp
  | cons b l ih =>
    simp only [List.foldl_cons]
    rcases List.mem_cons.mp (ih (if a.data < b.data then b else a)) with h | h
    · rw [h]
      split_ifs <;> simp
    · simp [h]

theorem foldl_max_not_lt (l : List String) (a : String) :
    ∀ c ∈ a :: l,
      ¬ (l.foldl (fun a b => if a.data < b.data then b else a) a).data < c.data := by
  induction l generalizing a with
  | nil =>
    intro c hc
    rw [List.mem_singleton] at hc
    subst hc
    exact lt_irrefl _
  | cons b l ih =>
    intro c hc
    simp only [List.foldl_cons]
    rcases List.mem_cons.mp hc with rfl | hc'
    · by_cases hba : c.data < b.data
      · rw [if_pos hba]
        intro hlt
        exact ih b b (List.mem_cons_self b l) (lt_trans hlt hba)
      · rw [if_neg hba]
        exact ih c c (List.mem_cons_self c l)
    · rcases List.mem_cons.mp hc' with rfl | hcl
      · by_cases hba : a.data < c.data
        · rw [if_pos hba]
          exact ih c c (List.mem_cons_self c l)
        · rw [if_neg hba]
          intro hlt
          exact ih a a (List.mem_cons_self a l) (lt_of_lt_of_le hlt (not_lt.mp hba))
      · by_cases hba : a.data < b.data
        · rw [if_pos hba]
          exact ih b c (List.mem_cons_of_mem b hcl)
        · rw [if_neg hba]
          exact ih a c (List.mem_cons_of_mem a hcl)

theorem periodo_max_eq_some (l : List String) (m : String) (hm : m ∈ l)
    (hub : ∀ c ∈ l, ¬ m.data < c.data) : periodo_max l = some m := by
  cases l with
  | nil => simp at hm
  | cons a l =>
    simp only [periodo_max, Option.some.injEq]
    have h1 := hub _ (foldl_max_mem l a)
    have h2 := foldl_max_not_lt l a m hm
    apply String.ext
    have ht := lt_trichotomy
        ((l.foldl (fun a b => if a.data < b.data then b else a) a).data) m.data
    rcases ht with h | h | h
    · exact absurd h h2
    · exact h
    · exact absurd h h1

set_option maxRecDepth 100000 in
theorem timestamps_ball_min :
    ∀ t ∈ gerar_timestamps_7_dias,
      ¬ t.strftime.data < ("2024-01-15 00:00:00" : String).data := by decide

set_option maxRecDepth 100000 in
theorem timestamps_ball_max :
    ∀ t ∈ gerar_timestamps_7_dias,
      ¬ ("2024-01-21 23:45:00" : String).data < t.strftime.data := by decide

set_option maxRecDepth 100000 in
theorem timestamps_min_mem :
    "2024-01-15 00:00:00" ∈
      (gerar_timestamps_7_dias.flatMap fun t => [t.strftime, t.strftime, t.strftime]) := by
  decide

set_option maxRecDepth 100000 in
theorem timestamps_max_dt_mem :
    (⟨2024, 1, 21, 23, 45, 0⟩ : Datetime) ∈ gerar_timestamps_7_dias := by decide

theorem flatMap_triple_ball (p : String → Prop) (ts : List Datetime)
    (h : ∀ t ∈ ts, p t.strftime) :
    ∀ c ∈ ts.flatMap fun t => [t.strftime, t.strftime, t.strftime], p c := by
  intro c hc
  rw [List.mem_flatMap] at hc
  obtain ⟨t, ht, hc⟩ := hc
  simp only [List.mem_cons, List.not_mem_nil, or_false] at hc
  rcases hc with rfl | rfl | rfl <;> exact h t ht

theorem timestamps_strings_min :
    periodo_min (gerar_timestamps_7_dias.flatMap fun t => [t.strftime, t.strftime, t.strftime]) =
      some "2024-01-15 00:00:00" :=
  periodo_min_eq_some _ _ timestamps_min_mem
    (flatMap_triple_ball _ _ timestamps_ball_min)

theorem timestamps_max_mem :
    "2024-01-21 23:45:00" ∈
      (gerar_timestamps_7_dias.flatMap fun t => [t.strftime, t.strftime, t.strftime]) := by
  rw [List.mem_flatMap]
  exact ⟨⟨2024, 1, 21, 23, 45, 0⟩, timestamps_max_dt_mem, by decide⟩

theorem timestamps_strings_max :
    periodo_max (gerar_timestamps_7_dias.flatMap fun t => [t.strftime, t.strftime, t.strftime]) =
      some "2024-01-21 23:45:00" :=
  periodo_max_eq_some _ _ timestamps_max_mem
    (flatMap_triple_ball _ _ timestamps_ball_max)

set_option maxRecDepth 100000 in
theorem timestamps_last_strftime :
    gerar_timestamps_7_dias.getLast?.map Datetime.strftime = some "2024-01-21 23:45:00" := by
  decide

/-- **C10.** The period start and end of the printed summary are the
lexicographic minimum and maximum of the formatted timestamp strings, and
they equal the formatted chronologically first and last generated
instants: exactly `2024-01-15 00:00:00` and `2024-01-21 23:45:00`. -/
theorem C10_resumo_periodo (s0 : RandState) :
    (resumo (dados_sensores s0)).2.1 = some "2024-01-15 00:00:00" ∧
    (resumo (dados_sensores s0)).2.2.1 = some "2024-01-21 23:45:00" ∧
    gerar_timestamps_7_dias.head?.map Datetime.strftime = some "2024-01-15 00:00:00" ∧
    gerar_timestamps_7_dias.getLast?.map Datetime.strftime = some "2024-01-21 23:45:00" := by
  refine ⟨?_, ?_, by decide, timestamps_last_strftime⟩
  · show periodo_min ((dados_sensores s0).map Reading.timestamp) = _
    rw [dados_sensores, gerar_linhas_map_timestamp]
    exact timestamps_strings_min
  · show periodo_max ((dados_sensores s0).map Reading.timestamp) = _
    rw [dados_sensores, gerar_linhas_map_timestamp]
    exact timestamps_strings_max

/-- Instant 2024-01-20T10:00:00 (Saturday, daytime): its weekday is ≥ 5,
so occupancy draws from the 2% branch despite the hour lying in [9,18). -/
theorem C7_simular_ocupacao_witness :
    5 ≤ Datetime.weekday ⟨2024, 1, 20, 10, 0, 0⟩ ∧
    (9 ≤ (10 : Nat) ∧ (10 : Nat) < 18) ∧
    limiar_spec ⟨2024, 1, 20, 10, 0, 0⟩ = 0.02 :=
  ⟨by decide, by decide,
   (C7_simular_ocupacao ⟨2024, 1, 20, 10, 0, 0⟩ estadoZero).2.2.2.2.2 (by decide)⟩

end SmartOffice
